import Mathlib

/-!
Verification of the avemu A/V-device emulator front end (src/avemu.py).

The Python source is shallowly embedded: pure helpers become Lean
functions on `List Char` / `Nat` / `Int`; the module-level mutable
state (`_clients`, `_command_log`, `_stats`, `_tui_state`) becomes
explicit state records threaded through the operations that mutate
them; the lock discipline of `Server.run` around the protocol engine
becomes a labelled transition system over session program counters.
-/

/-! ## String machinery (List Char) -/

/-- Tests whether `pat` is a prefix of `s` (Python `re.search` with a
leading anchor on the pattern, or `str.startswith`). -/
def isPrefixL : List Char → List Char → Bool
  | [], _ => true
  | _ :: _, [] => false
  | a :: as, b :: bs => a = b && isPrefixL as bs

/-- Tests whether `pat` occurs as a contiguous substring of `s`
(Python `re.search` with an unanchored literal pattern, or `in`). -/
def containsL (pat : List Char) : List Char → Bool
  | [] => isPrefixL pat []
  | c :: rest => isPrefixL pat (c :: rest) || containsL pat rest

/-- Uppercased copy of a string (Python `str.upper`, modelled for the
ASCII range the error patterns live in). -/
def upperL (s : List Char) : List Char := s.map Char.toUpper

/-- Lowercased copy of a string (Python `str.lower`, ASCII range). -/
def lowerL (s : List Char) : List Char := s.map Char.toLower

/-- Case-insensitive substring test: the uppercased subject contains
the (already uppercase) pattern. -/
def containsCI (s : List Char) (pat : String) : Bool :=
  containsL pat.data (upperL s)

/-- Case-insensitive prefix test: the uppercased subject starts with
the (already uppercase) pattern. -/
def startsWithCI (s : List Char) (pat : String) : Bool :=
  isPrefixL pat.data (upperL s)

/-! ## Error classifier (avemu.py lines 36-51) -/

/-- Embedding of `is_error_response`: empty responses are never
errors; otherwise the uppercased response is tested against the
ordered `ERROR_PATTERNS` list: anchored `ERROR`, anchored `!E(`,
unanchored `ERR`, `INVALID`, `UNKNOWN`, anchored `NAK`. -/
def is_error_response (s : List Char) : Bool :=
  if s = [] then false
  else
    let u := upperL s
    isPrefixL ("ERROR".data) u || isPrefixL ("!E(".data) u ||
    containsL ("ERR".data) u || containsL ("INVALID".data) u ||
    containsL ("UNKNOWN".data) u || isPrefixL ("NAK".data) u

/-! ## Command log ring (deque with maxlen=100, avemu.py line 75) -/

/-- A logged command with metadata (`CommandLogEntry`); the wall-clock
timestamp is abstracted to a `Nat`. -/
structure CommandLogEntry where
  timestamp : Nat
  client_id : List Char
  command : List Char
  response : List Char
  is_error : Bool
deriving DecidableEq

/-- Embedding of `_command_log.append` for a `deque(maxlen=100)`:
once the deque is full an append silently discards the leftmost
(oldest) element. -/
def commandLogAppend (l : List CommandLogEntry) (e : CommandLogEntry) :
    List CommandLogEntry :=
  if l.length < 100 then l ++ [e] else l.tail ++ [e]

/-- A whole sequence of appends, oldest first, starting from `l`. -/
def commandLogAppendAll (l : List CommandLogEntry)
    (es : List CommandLogEntry) : List CommandLogEntry :=
  es.foldl commandLogAppend l

/-! ## Registry state and operations (avemu.py lines 72-76, 255-280) -/

/-- The `_stats` dictionary. -/
structure Stats where
  commands : Nat
  connections : Nat
  errors : Nat
deriving DecidableEq

/-- Module-level shared state guarded by `_state_lock`: `_clients`
(sessions identified by a `Nat`), `_command_log`, `_stats`. -/
structure RegistryState where
  clients : List Nat
  log : List CommandLogEntry
  stats : Stats
deriving DecidableEq

/-- List-level embedding of `Server._register_client`: append self,
unconditionally. -/
def registerClientList (l : List Nat) (sid : Nat) : List Nat := l ++ [sid]

/-- List-level embedding of `Server._deregister_client`:
`if self in _clients: _clients.remove(self)` — Python `list.remove`
deletes the first occurrence only. -/
def deregisterClientList (l : List Nat) (sid : Nat) : List Nat :=
  if sid ∈ l then l.erase sid else l

/-- Embedding of `Server._register_client` on the registry state. -/
def registerClient (st : RegistryState) (sid : Nat) : RegistryState :=
  { st with
    clients := registerClientList st.clients sid
    stats := { st.stats with connections := st.stats.connections + 1 } }

/-- Embedding of `Server._deregister_client` on the registry state. -/
def deregisterClient (st : RegistryState) (sid : Nat) : RegistryState :=
  { st with clients := deregisterClientList st.clients sid }

/-- Embedding of `Server._log_command`: classify, build the entry,
append to the ring, bump `commands`, bump `errors` when classified as
an error. `now` stands for `datetime.now()`. -/
def logCommand (st : RegistryState) (now : Nat)
    (clientId command response : List Char) : RegistryState :=
  let isErr := is_error_response response
  let entry : CommandLogEntry :=
    { timestamp := now, client_id := clientId, command := command
      response := response, is_error := isErr }
  { st with
    log := commandLogAppend st.log entry
    stats := { st.stats with
               commands := st.stats.commands + 1
               errors := st.stats.errors + (if isErr then 1 else 0) } }

/-- The mutating registry operations, as one type, so monotonicity of
the counters can be stated across every operation. -/
inductive RegistryOp where
  | register (sid : Nat)
  | deregister (sid : Nat)
  | logCmd (now : Nat) (clientId command response : List Char)

/-- Apply one registry operation. -/
def applyRegistryOp (op : RegistryOp) (st : RegistryState) : RegistryState :=
  match op with
  | RegistryOp.register sid => registerClient st sid
  | RegistryOp.deregister sid => deregisterClient st sid
  | RegistryOp.logCmd now cid cmd resp => logCommand st now cid cmd resp

/-! ## TUI state and keyboard state machine (avemu.py lines 82-94, 354-447) -/

/-- The `TUIState` dataclass. Indices are `Int` since
`selected_log_idx` uses `-1` for "no selection". The search query is
kept as a char list (Python strings are char sequences; backspace is
`s[:-1]`). -/
structure TUIState where
  info_panel_visible : Bool := false
  detail_popup_visible : Bool := false
  search_active : Bool := false
  search_query : List Char := []
  scroll_offset : Int := 0
  selected_log_idx : Int := -1
  selected_cmd_idx : Int := 0
deriving DecidableEq

/-- Direction argument of `handle_navigation`. -/
inductive NavDir where
  | up
  | down
deriving DecidableEq

/-- Embedding of `handle_navigation`. `logLen` is the length of
`_command_log` read under the state lock. -/
def handle_navigation (direction : NavDir) (logLen : Nat)
    (st : TUIState) : TUIState :=
  if st.info_panel_visible then
    match direction with
    | NavDir.up =>
      let st1 := { st with selected_cmd_idx := max 0 (st.selected_cmd_idx - 1) }
      if st1.selected_cmd_idx < st1.scroll_offset then
        { st1 with scroll_offset := st1.selected_cmd_idx }
      else st1
    | NavDir.down => { st with selected_cmd_idx := st.selected_cmd_idx + 1 }
  else
    let maxIdx : Int := (logLen : Int) - 1
    match direction with
    | NavDir.up =>
      if st.selected_log_idx < maxIdx then
        { st with selected_log_idx := st.selected_log_idx + 1 }
      else st
    | NavDir.down =>
      { st with selected_log_idx := max (-1) (st.selected_log_idx - 1) }

/-- Python `str.isprintable` for a single character, modelled on the
ASCII range delivered by the terminal reader. -/
def isPrintableChar (c : Char) : Bool :=
  0x20 ≤ c.toNat && c.toNat ≤ 0x7e

/-- Tail of `handle_key` after the Ctrl-C and escape-sequence checks:
the `i` toggle, `/` search activation, `j`/`k` navigation, Enter, and
the search-input branch, in source order. -/
def handleKeyTail (k : List Char) (logLen : Nat) (st : TUIState) :
    TUIState × Bool :=
  if k = ['i'] then
    (if st.detail_popup_visible then { st with detail_popup_visible := false }
     else { st with info_panel_visible := !st.info_panel_visible
                    scroll_offset := 0
                    selected_cmd_idx := 0 }, false)
  else if k = ['/'] && st.info_panel_visible then
    ({ st with search_active := true, search_query := [] }, false)
  else if k = ['j'] || k = ['k'] then
    (handle_navigation (if k = ['j'] then NavDir.down else NavDir.up)
      logLen st, false)
  else if k = ['\r'] || k = ['\n'] then
    (if st.info_panel_visible then { st with detail_popup_visible := true }
     else if 0 ≤ st.selected_log_idx then
       { st with detail_popup_visible := true }
     else st, false)
  else if st.search_active then
    (if k = ['\x7f'] then { st with search_query := st.search_query.dropLast }
     else
       match k with
       | [c] =>
         if isPrintableChar c then
           { st with search_query := st.search_query ++ [c] }
         else st
       | _ => st, false)
  else (st, false)

/-- Embedding of `handle_key`. The key is the decoded chunk read from
the terminal (`None` when no key was pending); the `Bool` result is
the quit flag. -/
def handleKey (key : Option (List Char)) (logLen : Nat) (st : TUIState) :
    TUIState × Bool :=
  match key with
  | none => (st, false)
  | some k =>
    if k = ['\x03'] then (st, true)
    else if k = ['\x1b'] || isPrefixL ['\x1b'] k then
      if k = ['\x1b', '[', 'A'] then
        (handle_navigation NavDir.up logLen st, false)
      else if k = ['\x1b', '[', 'B'] then
        (handle_navigation NavDir.down logLen st, false)
      else if k = ['\x1b'] then
        (if st.detail_popup_visible then
           { st with detail_popup_visible := false }
         else if st.search_active then
           { st with search_active := false, search_query := [] }
         else if st.info_panel_visible then
           { st with info_panel_visible := false }
         else { st with selected_log_idx := -1 }, false)
      else handleKeyTail k logLen st
    else handleKeyTail k logLen st

/-! ## Info panel rendering state effect (avemu.py lines 620-728) -/

/-- One entry of the protocol metadata snapshot built by
`extract_command_info`; only the fields `render_info_panel` reads for
its filtering and state adjustments are modelled (the remaining
fields feed pure text output only). -/
structure CmdInfo where
  name : List Char
  description : List Char
deriving DecidableEq

/-- The search filter inside `render_info_panel`: with a non-empty
query, keep the commands whose name or description contains the
lowercased query. -/
def filterCommands (cmds : List CmdInfo) (q : List Char) : List CmdInfo :=
  if q = [] then cmds
  else
    let ql := lowerL q
    cmds.filter fun c =>
      containsL ql (lowerL c.name) || containsL ql (lowerL c.description)

/-- The effect of `render_info_panel` on `_tui_state`: with 12
visible rows, pull `scroll_offset` up when the selection has moved
below the window, then clamp `selected_cmd_idx` to the filtered list
when that list is non-empty. The text output itself is a pure
projection and is not modelled. -/
def render_info_panel_state (cmds : List CmdInfo) (st : TUIState) : TUIState :=
  let filtered := filterCommands cmds st.search_query
  let visibleCount : Int := 12
  let st1 :=
    if st.scroll_offset + visibleCount ≤ st.selected_cmd_idx then
      { st with scroll_offset := st.selected_cmd_idx - visibleCount + 1 }
    else st
  if filtered = [] then st1
  else
    { st1 with
      selected_cmd_idx := min st1.selected_cmd_idx ((filtered.length : Int) - 1) }

/-! ## Listening port selection (avemu.py lines 30, 320-324, 1058-1062) -/

/-- Connection settings of a protocol definition, down to the IP
port; `Option` stands for Python `None`. -/
structure IpSettings where
  port : Nat
deriving DecidableEq

/-- The `connection` member of a protocol definition. -/
structure ConnectionSettings where
  ip : Option IpSettings
deriving DecidableEq

/-- The slice of a `ProtocolDefinition` that port selection reads. -/
structure ProtocolPorts where
  connection : Option ConnectionSettings
deriving DecidableEq

/-- The `DEFAULT_PORT` constant. -/
def DEFAULT_PORT : Nat := 4999

/-- Embedding of `get_default_port`: the declared IP port when both
`connection` and `connection.ip` are present, else `None`. -/
def get_default_port (p : ProtocolPorts) : Option Nat :=
  match p.connection with
  | some conn =>
    match conn.ip with
    | some ipSettings => some ipSettings.port
    | none => none
  | none => none

/-- Embedding of the port computation in `main`: start from the
parsed `--port` value; when it equals `DEFAULT_PORT`, the walrus test
`if device_port := get_default_port(protocol):` replaces it by the
protocol's declared port when that port exists and is truthy
(non-zero). -/
def computePort (argsPort : Nat) (p : ProtocolPorts) : Nat :=
  if argsPort = DEFAULT_PORT then
    match get_default_port p with
    | some devicePort => if devicePort ≠ 0 then devicePort else argsPort
    | none => argsPort
  else argsPort

/-! ## Gateway lock transition system (avemu.py lines 73, 282-302) -/

/-- Program counter of one session's `Server.run` loop, restricted to
the protocol-engine call: between reads it is `idle`; having read a
chunk it is `waiting` at `with _emulator_lock`; inside
`process_command` it is `inEngine`. -/
inductive SessPc where
  | idle
  | waiting
  | inEngine
deriving DecidableEq

/-- Pointwise update of a session program-counter map. -/
def setPc (f : Nat → SessPc) (i : Nat) (v : SessPc) : Nat → SessPc :=
  fun j => if j = i then v else f j

/-- Interleaved state of all sessions around `_emulator_lock`:
who holds the lock, and each session's program counter. -/
structure GatewayState where
  lockHolder : Option Nat
  pc : Nat → SessPc

/-- Interleaving semantics of `Server.run` around the engine call:
a session reads a chunk (no lock needed), acquires `_emulator_lock`
only when free and enters `process_command`, and on return releases
the lock it holds (the `with` statement releases exactly the lock the
same thread acquired). -/
inductive GwStep : GatewayState → GatewayState → Prop
  | recv (s : GatewayState) (i : Nat) (h : s.pc i = SessPc.idle) :
      GwStep s { s with pc := setPc s.pc i SessPc.waiting }
  | acquire (s : GatewayState) (i : Nat) (h : s.pc i = SessPc.waiting)
      (hl : s.lockHolder = none) :
      GwStep s { lockHolder := some i, pc := setPc s.pc i SessPc.inEngine }
  | release (s : GatewayState) (i : Nat) (h : s.pc i = SessPc.inEngine)
      (hl : s.lockHolder = some i) :
      GwStep s { lockHolder := none, pc := setPc s.pc i SessPc.idle }

/-- Start state: lock free, every session idle. -/
def initGateway : GatewayState :=
  { lockHolder := none, pc := fun _ => SessPc.idle }

/-- States reachable from the start state under any interleaving. -/
inductive GwReachable : GatewayState → Prop
  | init : GwReachable initGateway
  | step {s t : GatewayState} :
      GwReachable s → GwStep s t → GwReachable t

/-- The lock invariant: every session inside the engine holds the lock. -/
def gwInv (s : GatewayState) : Prop :=
  ∀ i, s.pc i = SessPc.inEngine → s.lockHolder = some i

/-! ## Concrete states used for instantiations -/

/-- A sample log entry. -/
def sampleEntry : CommandLogEntry :=
  { timestamp := 0, client_id := [], command := [], response := []
    is_error := false }

/-- A console state with the info panel open and search active on
query "v". -/
def searchState : TUIState :=
  { info_panel_visible := true, detail_popup_visible := false
    search_active := true, search_query := ['v'], scroll_offset := 0
    selected_log_idx := -1, selected_cmd_idx := 0 }

/-- Gateway state after session 0 has read a chunk. -/
def gwS1 : GatewayState :=
  { lockHolder := none, pc := setPc initGateway.pc 0 SessPc.waiting }

/-- Gateway state after session 0 has acquired `_emulator_lock` and
entered `process_command`. -/
def gwS2 : GatewayState :=
  { lockHolder := some 0, pc := setPc gwS1.pc 0 SessPc.inEngine }

/-! ## Helper lemmas -/

/-- A prefix test for a longer pattern implies the test for the
shorter pattern. -/
lemma isPrefixL_of_append (p q s : List Char)
    (h : isPrefixL (p ++ q) s = true) : isPrefixL p s = true := by
  induction p generalizing s with
  | nil => rfl
  | cons a as ih =>
    cases s with
    | nil => simp [isPrefixL] at h
    | cons b bs =>
      simp only [List.cons_append, isPrefixL, Bool.and_eq_true,
        decide_eq_true_eq] at h ⊢
      exact ⟨h.1, ih bs h.2⟩

/-- A substring test for a longer pattern implies the test for the
shorter pattern. -/
lemma containsL_of_append (p q s : List Char)
    (h : containsL (p ++ q) s = true) : containsL p s = true := by
  induction s with
  | nil => exact isPrefixL_of_append p q [] h
  | cons c rest ih =>
    simp only [containsL, Bool.or_eq_true] at h ⊢
    rcases h with h | h
    · exact Or.inl (isPrefixL_of_append p q (c :: rest) h)
    · exact Or.inr (ih h)

/-- Length of one ring append, below capacity or at it. -/
lemma commandLogAppend_length (l : List CommandLogEntry)
    (e : CommandLogEntry) (h : l.length ≤ 100) :
    (commandLogAppend l e).length = min (l.length + 1) 100 := by
  unfold commandLogAppend
  by_cases hlt : l.length < 100
  · rw [if_pos hlt]; simp; omega
  · rw [if_neg hlt]; simp [List.length_tail]; omega

/-- Length of a whole sequence of ring appends. -/
lemma commandLogAppendAll_length (es : List CommandLogEntry) :
    ∀ l : List CommandLogEntry, l.length ≤ 100 →
      (commandLogAppendAll l es).length = min (l.length + es.length) 100 := by
  induction es with
  | nil => intro l h; simp [commandLogAppendAll]; omega
  | cons e es ih =>
    intro l h
    have h1 := commandLogAppend_length l e h
    have h2 : (commandLogAppend l e).length ≤ 100 := by omega
    have h3 : commandLogAppendAll l (e :: es) =
        commandLogAppendAll (commandLogAppend l e) es := rfl
    rw [h3, ih _ h2, h1]
    simp
    omega

/-! ## Claim theorems -/

/-- Claim C2: the command log (a `deque(maxlen=100)`) holds at most
100 entries after every sequence of appends starting from the empty
log, and an append to a full log of 100 entries drops exactly the
oldest entry, preserves the order of the remaining ones and places
the new entry at the end. -/
theorem command_log_ring :
    (∀ es : List CommandLogEntry,
      (commandLogAppendAll [] es).length ≤ 100) ∧
    (∀ (l : List CommandLogEntry) (e : CommandLogEntry),
      l.length = 100 → commandLogAppend l e = l.drop 1 ++ [e]) := by
  constructor
  · intro es
    have := commandLogAppendAll_length es [] (by simp)
    simp at this
    omega
  · intro l e h
    unfold commandLogAppend
    rw [if_neg (by omega), List.drop_one]

/-- Witness for C2: appending to a concrete full log of 100 entries
drops the head. -/
theorem command_log_ring_witness :
    commandLogAppend (List.replicate 100 sampleEntry) sampleEntry =
      (List.replicate 100 sampleEntry).drop 1 ++ [sampleEntry] :=
  command_log_ring.2 _ _ (by simp)

/-- Claim C3: `is_error_response` is pure in its input string: empty
input is never an error; any input whose uppercased form contains
ERROR, ERR, INVALID or UNKNOWN, or starts with !E( or NAK, is an
error; and the plain echo "!STATE(OFF)" is not an error. -/
theorem error_classifier_spec :
    is_error_response [] = false ∧
    (∀ s : List Char,
      containsCI s "ERROR" = true ∨ containsCI s "ERR" = true ∨
      containsCI s "INVALID" = true ∨ containsCI s "UNKNOWN" = true ∨
      startsWithCI s "!E(" = true ∨ startsWithCI s "NAK" = true →
      is_error_response s = true) ∧
    is_error_response ("!STATE(OFF)".data) = false := by
  refine ⟨by decide, ?_, by decide⟩
  intro s h
  have hne : s ≠ [] := by
    intro he
    subst he
    exact absurd h (by decide)
  unfold is_error_response
  rw [if_neg hne]
  simp only [Bool.or_eq_true]
  simp only [containsCI, startsWithCI] at h
  rcases h with h | h | h | h | h | h
  · have h2 : containsL ("ERR".data) (upperL s) = true :=
      containsL_of_append ("ERR".data) ("OR".data) (upperL s) h
    tauto
  · tauto
  · tauto
  · tauto
  · tauto
  · tauto

/-- Witness for C3: a concrete lowercase string containing "invalid"
is classified as an error. -/
theorem error_classifier_spec_witness :
    is_error_response ("vol=invalid".data) = true :=
  error_classifier_spec.2.1 _ (Or.inr (Or.inr (Or.inl (by decide))))

/-- Claim C4: `_log_command` appends exactly one entry to the ring
(evicting the oldest only when full), increments `commands` by
exactly one, increments `errors` by one exactly when the classifier
flags the response; and no registry operation ever decreases any of
the three counters. -/
theorem log_command_counters :
    (∀ (st : RegistryState) (now : Nat) (cid cmd resp : List Char),
      (logCommand st now cid cmd resp).log =
        (if st.log.length < 100 then st.log else st.log.tail) ++
          [{ timestamp := now, client_id := cid, command := cmd
             response := resp, is_error := is_error_response resp }] ∧
      (logCommand st now cid cmd resp).stats.commands =
        st.stats.commands + 1 ∧
      (logCommand st now cid cmd resp).stats.errors =
        st.stats.errors +
          (if is_error_response resp = true then 1 else 0)) ∧
    (∀ (op : RegistryOp) (st : RegistryState),
      st.stats.commands ≤ (applyRegistryOp op st).stats.commands ∧
      st.stats.connections ≤ (applyRegistryOp op st).stats.connections ∧
      st.stats.errors ≤ (applyRegistryOp op st).stats.errors) := by
  constructor
  · intro st now cid cmd resp
    refine ⟨?_, rfl, rfl⟩
    show commandLogAppend st.log _ = _
    unfold commandLogAppend
    split
    · rfl
    · rfl
  · intro op st
    cases op with
    | register sid => exact ⟨Nat.le_refl _, Nat.le_succ _, Nat.le_refl _⟩
    | deregister sid => exact ⟨Nat.le_refl _, Nat.le_refl _, Nat.le_refl _⟩
    | logCmd now cid cmd resp =>
      refine ⟨Nat.le_succ _, Nat.le_refl _, ?_⟩
      show st.stats.errors ≤ st.stats.errors + _
      exact Nat.le_add_right _ _

/-- Counterexample to C10 as universally stated: on a client list
holding the same session twice, deregistering twice is not the same
as deregistering once (`list.remove` drops one occurrence per call). -/
theorem deregister_counterexample :
    deregisterClientList (deregisterClientList [0, 0] 0) 0 ≠
      deregisterClientList [0, 0] 0 := by decide

/-- Amended C10: deregistering an absent session is a no-op;
deregistering twice equals deregistering once on every list in which
the session occurs at most once (the program invariant); and
registering an absent session then deregistering it restores the
original list. -/
theorem deregister_idempotent :
    (∀ (l : List Nat) (s : Nat), s ∉ l → deregisterClientList l s = l) ∧
    (∀ (l : List Nat) (s : Nat), l.count s ≤ 1 →
      deregisterClientList (deregisterClientList l s) s =
        deregisterClientList l s) ∧
    (∀ (l : List Nat) (s : Nat), s ∉ l →
      deregisterClientList (registerClientList l s) s = l) := by
  refine ⟨?_, ?_, ?_⟩
  · intro l s h
    unfold deregisterClientList
    rw [if_neg h]
  · intro l s h
    by_cases hm : s ∈ l
    · have he : deregisterClientList l s = l.erase s := by
        unfold deregisterClientList
        rw [if_pos hm]
      have hcount : (l.erase s).count s = 0 := by
        rw [List.count_erase_self]
        have : 0 < l.count s := List.count_pos_iff.mpr hm
        omega
      have hnm : s ∉ l.erase s := by
        intro hmem
        have := List.count_pos_iff.mpr hmem
        omega
      rw [he]
      unfold deregisterClientList
      rw [if_neg hnm]
    · have he : deregisterClientList l s = l := by
        unfold deregisterClientList
        rw [if_neg hm]
      rw [he, he]
  · intro l s h
    unfold registerClientList deregisterClientList
    rw [if_pos (by simp)]
    rw [List.erase_append_right _ h]
    simp

/-- Witness for amended C10: concrete instances of all three parts. -/
theorem deregister_idempotent_witness :
    deregisterClientList [3] 7 = [3] ∧
    deregisterClientList (deregisterClientList [1, 2] 2) 2 =
      deregisterClientList [1, 2] 2 ∧
    deregisterClientList (registerClientList [4] 9) 9 = [4] :=
  ⟨deregister_idempotent.1 _ _ (by decide),
   deregister_idempotent.2.1 _ _ (by decide),
   deregister_idempotent.2.2 _ _ (by decide)⟩

/-- An ASCII-printable character is none of the control characters
`handle_key` intercepts before the search-input branch. -/
lemma printable_ascii_ne (c : Char) (hp : isPrintableChar c = true) :
    c ≠ '\x03' ∧ c ≠ '\x1b' ∧ c ≠ '\r' ∧ c ≠ '\n' ∧ c ≠ '\x7f' := by
  refine ⟨?_, ?_, ?_, ?_, ?_⟩ <;>
    · intro he
      subst he
      revert hp
      decide

/-- Counterexample to C5 as stated: with search active in the info
panel, the printable key i does not append to the query — the `i`
branch of `handle_key` runs first and closes the info panel. -/
theorem search_input_counterexample :
    (handleKey (some ['i']) 0 searchState).1 ≠
      { searchState with
        search_query := searchState.search_query ++ ['i'] } := by decide

/-- Amended C5: with search active, a single printable character that
is not one of the keys with a dedicated earlier binding (i, j, k, and
/ while the info panel is visible) is appended to the query with no
other state change, and backspace removes the last query character
with no other state change. -/
theorem search_input_amended :
    (∀ (st : TUIState) (logLen : Nat) (c : Char),
      st.search_active = true → isPrintableChar c = true →
      c ≠ 'i' → c ≠ 'j' → c ≠ 'k' →
      (c = '/' → st.info_panel_visible = false) →
      handleKey (some [c]) logLen st =
        ({ st with search_query := st.search_query ++ [c] }, false)) ∧
    (∀ (st : TUIState) (logLen : Nat),
      st.search_active = true →
      handleKey (some ['\x7f']) logLen st =
        ({ st with search_query := st.search_query.dropLast }, false)) := by
  constructor
  · intro st logLen c hs hp hi hj hk hslash
    obtain ⟨h3, h1b, hr, hn, h7f⟩ := printable_ascii_ne c hp
    have h1b2 : ¬('\x1b' = c) := fun he => h1b he.symm
    by_cases hcs : c = '/'
    · have hpanel := hslash hcs
      subst hcs
      simp [handleKey, handleKeyTail, isPrefixL, hs, hpanel, hp]
    · simp [handleKey, handleKeyTail, isPrefixL, hs, hp, h3, h1b, h1b2,
        hi, hj, hk, hcs, hr, hn, h7f]
  · intro st logLen hs
    simp [handleKey, handleKeyTail, isPrefixL, hs]

/-- Witness for amended C5: on a concrete search-active state the key
v is appended and backspace drops the last character. -/
theorem search_input_witness :
    handleKey (some ['v']) 0 searchState =
      ({ searchState with
         search_query := searchState.search_query ++ ['v'] }, false) ∧
    handleKey (some ['\x7f']) 0 searchState =
      ({ searchState with
         search_query := searchState.search_query.dropLast }, false) :=
  ⟨search_input_amended.1 searchState 0 'v' rfl (by decide) (by decide)
      (by decide) (by decide) (by decide),
   search_input_amended.2 searchState 0 rfl⟩

/-- Claim C8: Escape performs exactly one effect per press, in
priority order: close the detail popup; else cancel the active
search; else close the info panel; else clear the log selection. -/
theorem escape_priority (st : TUIState) (logLen : Nat) :
    (st.detail_popup_visible = true →
      handleKey (some ['\x1b']) logLen st =
        ({ st with detail_popup_visible := false }, false)) ∧
    (st.detail_popup_visible = false → st.search_active = true →
      handleKey (some ['\x1b']) logLen st =
        ({ st with search_active := false, search_query := [] }, false)) ∧
    (st.detail_popup_visible = false → st.search_active = false →
      st.info_panel_visible = true →
      handleKey (some ['\x1b']) logLen st =
        ({ st with info_panel_visible := false }, false)) ∧
    (st.detail_popup_visible = false → st.search_active = false →
      st.info_panel_visible = false →
      handleKey (some ['\x1b']) logLen st =
        ({ st with selected_log_idx := -1 }, false)) := by
  refine ⟨fun h1 => ?_, fun h1 h2 => ?_, fun h1 h2 h3 => ?_,
    fun h1 h2 h3 => ?_⟩ <;>
    simp [handleKey, isPrefixL, *]

/-- Witness for C8: the four escape effects on concrete states. -/
theorem escape_priority_witness :
    handleKey (some ['\x1b']) 0
        { detail_popup_visible := true, search_active := true
          info_panel_visible := true } =
      ({ detail_popup_visible := false, search_active := true
         info_panel_visible := true }, false) ∧
    handleKey (some ['\x1b']) 0
        { search_active := true, search_query := ['a']
          info_panel_visible := true } =
      ({ search_active := false, search_query := []
         info_panel_visible := true }, false) ∧
    handleKey (some ['\x1b']) 0 { info_panel_visible := true } =
      ({ info_panel_visible := false }, false) ∧
    handleKey (some ['\x1b']) 0 { selected_log_idx := 5 } =
      ({ selected_log_idx := -1 }, false) :=
  ⟨(escape_priority _ _).1 rfl,
   (escape_priority _ _).2.1 rfl rfl,
   (escape_priority _ _).2.2.1 rfl rfl rfl,
   (escape_priority _ _).2.2.2 rfl rfl rfl⟩

/-- Claim C9: when the detail popup is visible, the key i only closes
it, every other field unchanged; otherwise i toggles the info panel
and resets the scroll offset and selected command index to 0. -/
theorem info_toggle_popup (st : TUIState) (logLen : Nat) :
    (st.detail_popup_visible = true →
      handleKey (some ['i']) logLen st =
        ({ st with detail_popup_visible := false }, false)) ∧
    (st.detail_popup_visible = false →
      handleKey (some ['i']) logLen st =
        ({ st with info_panel_visible := !st.info_panel_visible
                   scroll_offset := 0, selected_cmd_idx := 0 }, false)) := by
  constructor
  · intro h
    simp [handleKey, handleKeyTail, isPrefixL, h]
  · intro h
    simp [handleKey, handleKeyTail, isPrefixL, h]

/-- Witness for C9: the two i-key effects on concrete states. -/
theorem info_toggle_popup_witness :
    handleKey (some ['i']) 0
        { detail_popup_visible := true, search_active := true
          search_query := ['a'], scroll_offset := 2
          selected_cmd_idx := 4 } =
      ({ detail_popup_visible := false, search_active := true
         search_query := ['a'], scroll_offset := 2
         selected_cmd_idx := 4 }, false) ∧
    handleKey (some ['i']) 0
        { info_panel_visible := true, scroll_offset := 3
          selected_cmd_idx := 2 } =
      ({ info_panel_visible := false, scroll_offset := 0
         selected_cmd_idx := 0 }, false) :=
  ⟨(info_toggle_popup _ _).1 rfl, (info_toggle_popup _ _).2 rfl⟩

/-- Counterexample to C6 as stated: a user passing --port 4999
explicitly is still overridden by the protocol's declared port, since
`main` only compares the parsed value against `DEFAULT_PORT` and
cannot tell an explicit 4999 from the argparse default. -/
theorem port_override_counterexample :
    computePort 4999 { connection := some { ip := some { port := 23 } } } ≠
      4999 := by decide

/-- Amended C6: the listening port equals the --port value whenever
that value differs from 4999; when the value equals 4999 (whether
explicit or defaulted) it is overridden by the protocol's declared
default port when one exists and is non-zero, else stays 4999. -/
theorem port_selection_amended :
    (∀ (p : Nat) (proto : ProtocolPorts), p ≠ DEFAULT_PORT →
      computePort p proto = p) ∧
    (∀ (proto : ProtocolPorts) (dp : Nat),
      get_default_port proto = some dp → dp ≠ 0 →
      computePort DEFAULT_PORT proto = dp) ∧
    (∀ proto : ProtocolPorts, get_default_port proto = none →
      computePort DEFAULT_PORT proto = DEFAULT_PORT) ∧
    (∀ proto : ProtocolPorts, get_default_port proto = some 0 →
      computePort DEFAULT_PORT proto = DEFAULT_PORT) := by
  refine ⟨?_, ?_, ?_, ?_⟩
  · intro p proto h
    unfold computePort
    rw [if_neg h]
  · intro proto dp h hz
    unfold computePort
    rw [if_pos rfl, h]
    simp [hz]
  · intro proto h
    unfold computePort
    rw [if_pos rfl, h]
  · intro proto h
    unfold computePort
    rw [if_pos rfl, h]
    simp

/-- Witness for amended C6: concrete instances of all four cases. -/
theorem port_selection_witness :
    computePort 5000 { connection := some { ip := some { port := 23 } } } =
      5000 ∧
    computePort 4999 { connection := some { ip := some { port := 23 } } } =
      23 ∧
    computePort 4999 { connection := none } = 4999 ∧
    computePort 4999 { connection := some { ip := some { port := 0 } } } =
      4999 :=
  ⟨port_selection_amended.1 5000 _ (by decide),
   port_selection_amended.2.1 _ 23 rfl (by decide),
   port_selection_amended.2.2.1 _ rfl,
   port_selection_amended.2.2.2 _ rfl⟩

/-- Counterexample to C7 as stated: `render_info_panel` is not a pure
projection — when the selection sits below the visible window it
updates `_tui_state.scroll_offset` (and clamps the selection), here
turning a scroll offset of 0 into 2. -/
theorem render_mutates_state_counterexample :
    render_info_panel_state
        (List.replicate 14 { name := [], description := [] })
        { info_panel_visible := true, selected_cmd_idx := 13 } ≠
      { info_panel_visible := true, selected_cmd_idx := 13 } := by decide

/-- Amended C7: the info-panel renderer's only effects on
ConsoleState are to the scroll offset and the selected command index;
panel visibilities, search state, query and log selection are
untouched (and the registry is read only through snapshots). -/
theorem render_info_panel_frame (cmds : List CmdInfo) (st : TUIState) :
    (render_info_panel_state cmds st).info_panel_visible =
      st.info_panel_visible ∧
    (render_info_panel_state cmds st).detail_popup_visible =
      st.detail_popup_visible ∧
    (render_info_panel_state cmds st).search_active = st.search_active ∧
    (render_info_panel_state cmds st).search_query = st.search_query ∧
    (render_info_panel_state cmds st).selected_log_idx =
      st.selected_log_idx := by
  unfold render_info_panel_state
  by_cases h1 : st.scroll_offset + 12 ≤ st.selected_cmd_idx <;>
    by_cases h2 : filterCommands cmds st.search_query = [] <;>
      simp [h1, h2]

/-- The start state satisfies the lock invariant. -/
lemma gwInv_init : gwInv initGateway := by
  intro i h
  simp [initGateway] at h

/-- Every gateway step preserves the lock invariant. -/
lemma gwInv_preserved {s t : GatewayState} (hinv : gwInv s)
    (hstep : GwStep s t) : gwInv t := by
  cases hstep with
  | recv i h =>
    intro j hj
    by_cases hji : j = i
    · subst hji
      simp [setPc] at hj
    · have hs2 : s.pc j = SessPc.inEngine := by simpa [setPc, hji] using hj
      exact hinv j hs2
  | acquire i h hl =>
    intro j hj
    by_cases hji : j = i
    · subst hji
      rfl
    · have hs2 : s.pc j = SessPc.inEngine := by simpa [setPc, hji] using hj
      have h2 := hinv j hs2
      rw [hl] at h2
      exact absurd h2 (by simp)
  | release i h hl =>
    intro j hj
    by_cases hji : j = i
    · subst hji
      simp [setPc] at hj
    · have hs2 : s.pc j = SessPc.inEngine := by simpa [setPc, hji] using hj
      have h2 := hinv j hs2
      rw [hl] at h2
      exact absurd (Option.some.inj h2).symm hji

/-- Every reachable gateway state satisfies the lock invariant. -/
lemma gwReachable_inv {s : GatewayState} (h : GwReachable s) : gwInv s := by
  induction h with
  | init => exact gwInv_init
  | step hr hstep ih => exact gwInv_preserved ih hstep

/-- Claim C1: under every interleaving of sessions, at most one
session is inside `process_command` at any time — in every reachable
gateway state, two distinct sessions are never both in the engine. -/
theorem gateway_mutual_exclusion (s : GatewayState) (hs : GwReachable s)
    (i j : Nat) (hij : i ≠ j) :
    ¬(s.pc i = SessPc.inEngine ∧ s.pc j = SessPc.inEngine) := by
  rintro ⟨hi, hj⟩
  have hinv := gwReachable_inv hs
  have h1 := hinv i hi
  have h2 := hinv j hj
  rw [h1] at h2
  exact hij (Option.some.inj h2)

/-- Witness for C1: in the concrete reachable state where session 0
has read a command, taken the lock and entered the engine, sessions 0
and 1 are not both inside the engine. -/
theorem gateway_mutual_exclusion_witness :
    ¬(gwS2.pc 0 = SessPc.inEngine ∧ gwS2.pc 1 = SessPc.inEngine) :=
  gateway_mutual_exclusion gwS2
    (GwReachable.step
      (GwReachable.step GwReachable.init (GwStep.recv initGateway 0 rfl))
      (GwStep.acquire gwS1 0 rfl rfl))
    0 1 (by decide)
